import Mathlib

/-!
Verification of the `http_logstash` event-forwarding engine
(`salt/engines/http_logstash.py`): a shallow embedding of the
consume-filter-forward pipeline and proofs of its stated properties.

The engine reads events from the salt event bus, filters them by tag glob
patterns and by a function-name allow-list, and POSTs the accepted events'
data to a Logstash HTTP endpoint.
-/

namespace HttpLogstash

/-- Python values as they appear in an event's `data` mapping.  `vobj` stands
for a value that is not JSON-serializable (an arbitrary Python object). -/
inductive PyValue where
  | vstr (s : String)
  | vint (n : Int)
  | vbool (b : Bool)
  | vnone
  | vobj
deriving DecidableEq, Repr

/-- An event's `data` section: a Python dict modelled as an association list
(first binding of a key wins, as a dict has unique keys). -/
abbrev PyDict := List (String × PyValue)

/-- An event record as returned by `event_bus.get_event(full=True)`:
a `tag` string and a `data` mapping. -/
structure Event where
  tag : String
  data : PyDict
deriving DecidableEq, Repr

/-! ### Glob matching (`fnmatch.fnmatch`)

The engine matches event tags against patterns with Python's `fnmatch`
module (POSIX behaviour: case-sensitive).  We embed its semantics:
`*` matches any run of characters, `?` any single character, `[...]` a
character class (`[!...]` negated; a `]` right after the opening is a
literal member; an unterminated `[` is a literal `[`). -/

/-- An item of a character class: a single character or a range. -/
inductive ClsItem where
  | single (c : Char)
  | range (lo hi : Char)
deriving DecidableEq, Repr

/-- A token of a compiled glob pattern. -/
inductive GlobTok where
  | lit (c : Char)
  | anyChar
  | star
  | cls (neg : Bool) (items : List ClsItem)
deriving DecidableEq, Repr

/-- Scan for the closing `]` of a character class, returning the content
before it and the remainder after it. -/
def findClose : List Char → Option (List Char × List Char)
  | [] => none
  | c :: rest =>
    if c = ']' then some ([], rest)
    else (findClose rest).map (fun p => (c :: p.1, p.2))

/-- Split off a character class from the characters following a `[`,
replicating the scan in `fnmatch.translate`: an initial `!` and then an
initial `]` are part of the content, and the first `]` after them closes
the class.  Returns `none` when the class is unterminated. -/
def splitClass : List Char → Option (List Char × List Char)
  | '!' :: ']' :: rest => (findClose rest).map (fun p => ('!' :: ']' :: p.1, p.2))
  | '!' :: rest => (findClose rest).map (fun p => ('!' :: p.1, p.2))
  | ']' :: rest => (findClose rest).map (fun p => (']' :: p.1, p.2))
  | l => findClose l

/-- Parse the content of a character class into items, with `a-b` a range
and a `-` at the start or end a literal character (regex class rules, as
produced by `fnmatch.translate`). -/
def parseItems : List Char → List ClsItem
  | [] => []
  | a :: '-' :: b :: rest => ClsItem.range a b :: parseItems rest
  | a :: rest => ClsItem.single a :: parseItems rest

/-- Compile a glob pattern into tokens, following `fnmatch.translate`;
structural recursion on a fuel argument (the pattern length is always
enough fuel, as every step consumes at least one character). -/
def tokenizeAux : Nat → List Char → List GlobTok
  | 0, _ => []
  | _ + 1, [] => []
  | fuel + 1, c :: rest =>
    if c = '*' then GlobTok.star :: tokenizeAux fuel rest
    else if c = '?' then GlobTok.anyChar :: tokenizeAux fuel rest
    else if c = '[' then
      match splitClass rest with
      | none => GlobTok.lit '[' :: tokenizeAux fuel rest
      | some (stuff, rest') =>
        match stuff with
        | '!' :: s => GlobTok.cls true (parseItems s) :: tokenizeAux fuel rest'
        | s => GlobTok.cls false (parseItems s) :: tokenizeAux fuel rest'
    else GlobTok.lit c :: tokenizeAux fuel rest

/-- Compile a glob pattern into tokens. -/
def tokenize (l : List Char) : List GlobTok :=
  tokenizeAux l.length l

/-- Membership of a character in a character class. -/
def inClass (items : List ClsItem) (c : Char) : Bool :=
  items.any fun it =>
    match it with
    | ClsItem.single a => a == c
    | ClsItem.range lo hi => lo ≤ c && c ≤ hi

/-- Match a compiled glob pattern against a character list; structural
recursion on a fuel argument (the summed lengths plus one are always
enough fuel, as every step shortens the pattern or the text). -/
def matchToksAux : Nat → List GlobTok → List Char → Bool
  | 0, _, _ => false
  | fuel + 1, ps, cs =>
    match ps, cs with
    | [], [] => true
    | [], _ :: _ => false
    | GlobTok.star :: ps', [] => matchToksAux fuel ps' []
    | GlobTok.star :: ps', c :: cs' =>
      matchToksAux fuel ps' (c :: cs') || matchToksAux fuel (GlobTok.star :: ps') cs'
    | GlobTok.anyChar :: _, [] => false
    | GlobTok.anyChar :: ps', _ :: cs' => matchToksAux fuel ps' cs'
    | GlobTok.lit _ :: _, [] => false
    | GlobTok.lit a :: ps', c :: cs' => a == c && matchToksAux fuel ps' cs'
    | GlobTok.cls _ _ :: _, [] => false
    | GlobTok.cls neg items :: ps', c :: cs' =>
      (neg != inClass items c) && matchToksAux fuel ps' cs'

/-- Match a compiled glob pattern against a character list. -/
def matchToks (p : List GlobTok) (s : List Char) : Bool :=
  matchToksAux (p.length + s.length + 1) p s

/-- Embeds `fnmatch.fnmatch(name, pat)` (POSIX: `normcase` is the
identity, so this is case-sensitive matching). -/
def fnmatch (name pat : String) : Bool :=
  matchToks (tokenize pat.data) name.data

/-! ### Configuration values

`start(url, funs=None, tags=None)` is called with values from the YAML
engine configuration, so `tags` is dynamically typed: it may be absent
(`None`), a list of strings, a plain string, or a tuple.  The code guards
the tag filter with `if tags and isinstance(tags, list)`. -/

/-- The possible runtime types of the `tags` configuration value. -/
inductive PyTags where
  | pynone
  | pylist (l : List String)
  | pystr (s : String)
  | pytuple (l : List String)
deriving DecidableEq, Repr

/-- Python truthiness of a `tags` value: `None`, empty containers and the
empty string are falsy. -/
def pyTruthy : PyTags → Bool
  | PyTags.pynone => false
  | PyTags.pylist l => !l.isEmpty
  | PyTags.pystr s => !s.isEmpty
  | PyTags.pytuple l => !l.isEmpty

/-- Embeds `isinstance(tags, list)`. -/
def pyIsList : PyTags → Bool
  | PyTags.pylist _ => true
  | _ => false

/-- The underlying pattern list of a `tags` value (only consulted under the
`isinstance(tags, list)` guard). -/
def pyPatterns : PyTags → List String
  | PyTags.pylist l => l
  | _ => []

/-- Python truthiness of the `funs` value (`None` or a list of names). -/
def funsTruthy : Option (List String) → Bool
  | none => false
  | some l => !l.isEmpty

/-- Embeds the Python membership test `event["data"]["fun"] in funs`:
`in` compares the value with `==` against each list element, and a
non-string value never equals a string. -/
def funsContains (funs : Option (List String)) (v : PyValue) : Bool :=
  match funs with
  | none => false
  | some l =>
    l.any fun s =>
      match v with
      | PyValue.vstr t => t == s
      | _ => false

/-- Embeds `"fun" in event["data"]` (dict key membership). -/
def hasKey (d : PyDict) (k : String) : Bool :=
  d.any fun kv => kv.1 == k

/-- Embeds `event["data"]["fun"]` (dict lookup; only evaluated under the
key-membership guard, so the default is irrelevant). -/
def getKey (d : PyDict) (k : String) : PyValue :=
  match d.find? (fun kv => kv.1 == k) with
  | some kv => kv.2
  | none => PyValue.vnone

/-! ### The filter stage

Embeds the body of the `while True` loop of `start` that computes
`publish` (lines 112-121 of `http_logstash.py`):

    publish = True
    if tags and isinstance(tags, list):
        found_match = False
        for tag in tags:
            if fnmatch.fnmatch(event["tag"], tag):
                found_match = True
        publish = found_match
    if funs and "fun" in event["data"]:
        if not event["data"]["fun"] in funs:
            publish = False
    if publish:
        _logstash(url, event["data"])
-/

/-- The `publish` flag computed by the loop body for one event. -/
def shouldPublish (funs : Option (List String)) (tags : PyTags) (ev : Event) : Bool :=
  let publish := true
  let publish :=
    if pyTruthy tags && pyIsList tags then
      (pyPatterns tags).foldl
        (fun found_match tag => if fnmatch ev.tag tag then true else found_match)
        false
    else publish
  let publish :=
    if funsTruthy funs && hasKey ev.data "fun" then
      if !funsContains funs (getKey ev.data "fun") then false else publish
    else publish
  publish

/-- The tag predicate in isolation: with a truthy list of patterns the tag
must glob-match at least one of them, otherwise everything passes. -/
def tagAccepts (tags : PyTags) (t : String) : Bool :=
  if pyTruthy tags && pyIsList tags then
    (pyPatterns tags).any fun pat => fnmatch t pat
  else true

/-- The function-name predicate in isolation: with a truthy allow-list and
a `fun` key present, the value must be a member of the list; otherwise
everything passes. -/
def funAccepts (funs : Option (List String)) (d : PyDict) : Bool :=
  if funsTruthy funs && hasKey d "fun" then funsContains funs (getKey d "fun")
  else true

/-! ### The delivery sink

`_logstash` calls `salt.utils.http.query(url, "POST", header_dict=_HEADERS,
data=salt.utils.json.dumps(data), decode=True, status=True, opts=__opts__)`.
The modules `salt.utils.http` and `salt.utils.json` are not part of the
provided sources; they are modelled from the spec (sections 4.3, 6 and 7). -/

/-- An HTTP request as handed to the HTTP client. -/
structure HttpRequest where
  url : String
  method : String
  headers : List (String × String)
  body : String
deriving DecidableEq, Repr

/-- Modelled from the spec: the outcome of one call of the HTTP client
interface, either a response record of status code and body (any status,
2xx or not) or a transport-level network failure. -/
inductive HttpOutcome where
  | response (status : Nat) (body : String)
  | netFailure (msg : String)
deriving DecidableEq, Repr

/-- Modelled from the spec: the result of one delivery attempt; a
serialization failure, or a completed HTTP call (the spec: the reference
behavior treats any response, including non-2xx, as a completed call and
does not retry or raise). -/
inductive DeliveryResult where
  | serializationFailure
  | completed (outcome : HttpOutcome)
deriving DecidableEq, Repr

/-- JSON escaping of one character of a string value. -/
def jsonEscapeChar (c : Char) : String :=
  if c = '"' then "\\\""
  else if c = '\\' then "\\\\"
  else String.singleton c

/-- A JSON string literal. -/
def jsonStr (s : String) : String :=
  "\"" ++ String.join (s.data.map jsonEscapeChar) ++ "\""

/-- Modelled from the spec: serialization of one value of the event data
to JSON; `vobj` (an arbitrary Python object) is not serializable. -/
def dumpsVal : PyValue → Option String
  | PyValue.vstr s => some (jsonStr s)
  | PyValue.vint n => some (toString n)
  | PyValue.vbool b => some (if b then "true" else "false")
  | PyValue.vnone => some "null"
  | PyValue.vobj => none

/-- Modelled from the spec: `salt.utils.json.dumps` — serializes the event
data to a JSON document, failing when a value is not serializable
(a serialization failure is a non-fatal DeliveryError per section 7). -/
def dumps (d : PyDict) : Option String :=
  (d.mapM fun kv => (dumpsVal kv.2).map fun v => jsonStr kv.1 ++ ": " ++ v).map
    fun fields => "\x7b" ++ String.intercalate ", " fields ++ "\x7d"

/-- The module-level `_HEADERS` constant. -/
def _HEADERS : List (String × String) := [("Content-Type", "application/json")]

/-- Embeds `_logstash(url, data)`: serializes `data` and issues one POST
with `_HEADERS` through the HTTP client `net` (the client itself is
modelled from the spec: synchronous, no built-in retry).  Returns the list
of requests actually issued and the delivery result; on a serialization
failure no request is issued. -/
def logstash (url : String) (data : PyDict) (net : HttpRequest → HttpOutcome) :
    List HttpRequest × DeliveryResult :=
  match dumps data with
  | none => ([], DeliveryResult.serializationFailure)
  | some body =>
    let req : HttpRequest := ⟨url, "POST", _HEADERS, body⟩
    ([req], DeliveryResult.completed (net req))

/-- Modelled from the spec: classification of a failed delivery attempt —
network failure, non-2xx response, or serialization failure. -/
def deliveryFailed : DeliveryResult → Bool
  | DeliveryResult.serializationFailure => true
  | DeliveryResult.completed (HttpOutcome.netFailure _) => true
  | DeliveryResult.completed (HttpOutcome.response status _) =>
    !(200 ≤ status && status ≤ 299)

/-! ### The forwarding loop -/

/-- The observable processing of one loop iteration: a falsy event from
`get_event` is skipped; a real event is either dropped by the filter or
delivered (recording the payload handed to the sink, the requests issued
and the delivery result). -/
inductive Step where
  | skipped
  | dropped (ev : Event)
  | delivered (ev : Event) (payload : PyDict) (reqs : List HttpRequest)
      (res : DeliveryResult)
deriving DecidableEq, Repr

/-- The body of one iteration of the `while True` loop:
`event = event_bus.get_event(full=True)`, then filtering, then (if
`publish`) `_logstash(url, event["data"])`. -/
def processSlot (url : String) (funs : Option (List String)) (tags : PyTags)
    (net : HttpRequest → HttpOutcome) : Option Event → Step
  | none => Step.skipped
  | some ev =>
    if shouldPublish funs tags ev then
      let r := logstash url ev.data net
      Step.delivered ev ev.data r.1 r.2
    else Step.dropped ev

/-- Embeds the `while True` loop of `start` over a finite prefix of the
event stream (each element is what `get_event` returned: an event or a
falsy value). -/
def runLoop (url : String) (funs : Option (List String)) (tags : PyTags)
    (net : HttpRequest → HttpOutcome) : List (Option Event) → List Step
  | [] => []
  | none :: rest => Step.skipped :: runLoop url funs tags net rest
  | some ev :: rest =>
    if shouldPublish funs tags ev then
      Step.delivered ev ev.data (logstash url ev.data net).1
          (logstash url ev.data net).2 :: runLoop url funs tags net rest
    else Step.dropped ev :: runLoop url funs tags net rest

/-- The requests issued during one step. -/
def stepRequests : Step → List HttpRequest
  | Step.skipped => []
  | Step.dropped _ => []
  | Step.delivered _ _ reqs _ => reqs

/-- How many times the delivery sink (`_logstash`) was invoked in a step. -/
def sinkCalls : Step → Nat
  | Step.delivered _ _ _ _ => 1
  | _ => 0

/-- Whether a step handed its event to the delivery sink. -/
def isDelivered : Step → Bool
  | Step.delivered _ _ _ _ => true
  | _ => false

/-! ### Startup -/

/-- Embeds the Python string method `str.endswith`: a suffix test on the
character sequence (`String.endsWith` of the library is byte-position
based; this character-level formulation is the same test). -/
def pyEndsWith (s sfx : String) : Bool :=
  List.isSuffixOf sfx.data s.data

/-- Embeds lines 99-102 of `start`: the bus role is `"master"` when the
configured identity `__opts__["id"]` ends with `"_master"`, else
`"minion"`. -/
def startInstance (id : String) : String :=
  if pyEndsWith id "_master" then "master" else "minion"

/-- The observable outcome of invoking `start`. -/
inductive StartOutcome where
  | configError
  | ran (role : String) (steps : List Step)
deriving DecidableEq, Repr

/-- Embeds an invocation of `start(url, funs=None, tags=None)` by the
engine loader: `url` is a required parameter with no default, so a call
without it raises a TypeError before the function body runs — before the
role is computed, the bus subscription is opened or any event is pulled. -/
def invokeStart (url : Option String) (funs : Option (List String))
    (tags : PyTags) (id : String) (net : HttpRequest → HttpOutcome)
    (stream : List (Option Event)) : StartOutcome :=
  match url with
  | none => StartOutcome.configError
  | some u => StartOutcome.ran (startInstance id) (runLoop u funs tags net stream)

/-- All requests issued during an invocation of `start`. -/
def outcomeRequests : StartOutcome → List HttpRequest
  | StartOutcome.configError => []
  | StartOutcome.ran _ steps => (steps.map stepRequests).flatten

/-- An HTTP client that always answers with status 500, used to exercise
the failed-delivery path. -/
def net500 : HttpRequest → HttpOutcome :=
  fun _ => HttpOutcome.response 500 "err"

/-- An HTTP client that always answers with status 200. -/
def net200 : HttpRequest → HttpOutcome :=
  fun _ => HttpOutcome.response 200 "ok"

/-! ### Decomposition of the filter stage -/

/-- The `for tag in tags` accumulation of `found_match` is the same as
`any`: the flag ends up true iff some pattern matched. -/
theorem foldl_found_eq (f : String → Bool) (l : List String) (b : Bool) :
    l.foldl (fun found_match pat => if f pat then true else found_match) b =
      (b || l.any f) := by
  induction l generalizing b with
  | nil => simp
  | cons x xs ih =>
    simp only [List.foldl_cons, List.any_cons, ih]
    cases hx : f x <;> cases b <;> simp [hx]

/-- The loop body's `publish` flag is the conjunction of the tag predicate
and the function-name predicate. -/
theorem shouldPublish_eq (funs : Option (List String)) (tags : PyTags) (ev : Event) :
    shouldPublish funs tags ev =
      (tagAccepts tags ev.tag && funAccepts funs ev.data) := by
  unfold shouldPublish tagAccepts funAccepts
  cases h1 : (pyTruthy tags && pyIsList tags) <;>
    cases h2 : (funsTruthy funs && hasKey ev.data "fun") <;>
      simp only [h1, h2, if_true, if_false, foldl_found_eq, Bool.false_or,
        Bool.true_and, Bool.and_true, ite_true, ite_false] <;>
        cases hc : funsContains funs (getKey ev.data "fun") <;>
          simp [hc]

/-- One iteration of the loop processes exactly the slot at the head and
then continues with the rest of the stream. -/
theorem runLoop_cons (url : String) (funs : Option (List String)) (tags : PyTags)
    (net : HttpRequest → HttpOutcome) (slot : Option Event)
    (rest : List (Option Event)) :
    runLoop url funs tags net (slot :: rest) =
      processSlot url funs tags net slot :: runLoop url funs tags net rest := by
  cases slot with
  | none => rfl
  | some ev => cases h : shouldPublish funs tags ev <;> simp [runLoop, processSlot, h]

/-! ### The claims -/

/-- C1: Tag filtering.  With no function allow-list configured, an event is
forwarded iff the pattern list is empty (or the `tags` option absent) or
the event's tag glob-matches at least one pattern in the list. -/
theorem c1_tag_filtering (ev : Event) (P : List String) :
    (shouldPublish none (PyTags.pylist P) ev = true ↔
      P = [] ∨ ∃ p ∈ P, fnmatch ev.tag p = true) ∧
    shouldPublish none PyTags.pynone ev = true := by
  constructor
  · rw [shouldPublish_eq]
    unfold tagAccepts funAccepts
    cases P with
    | nil => simp [pyTruthy, pyIsList, pyPatterns, funsTruthy]
    | cons x xs =>
      simp [pyTruthy, pyIsList, pyPatterns, funsTruthy, List.any_eq_true]
  · rw [shouldPublish_eq]
    simp [tagAccepts, funAccepts, pyTruthy, pyIsList, funsTruthy]

/-- Witness for C1 at a concrete event and the empty pattern list. -/
theorem c1_tag_filtering_witness :
    shouldPublish none PyTags.pynone ⟨"salt/job/1/new", []⟩ = true :=
  (c1_tag_filtering ⟨"salt/job/1/new", []⟩ []).2

/-- C2: Function-name filtering is lenient.  If the event data has no `fun`
key, the decision does not depend on the allow-list at all; if it has one
and the allow-list is non-empty, forwarding requires membership. -/
theorem c2_fun_filtering (funs : Option (List String)) (tags : PyTags) (ev : Event) :
    (hasKey ev.data "fun" = false →
      ∀ funs2 : Option (List String),
        shouldPublish funs tags ev = shouldPublish funs2 tags ev) ∧
    (∀ F : List String, funs = some F → F ≠ [] → hasKey ev.data "fun" = true →
      shouldPublish funs tags ev = true →
      funsContains funs (getKey ev.data "fun") = true) := by
  constructor
  · intro h funs2
    rw [shouldPublish_eq, shouldPublish_eq]
    unfold funAccepts
    simp [h]
  · intro F hF hne hkey hpub
    rw [shouldPublish_eq] at hpub
    unfold funAccepts at hpub
    subst hF
    cases F with
    | nil => exact absurd rfl hne
    | cons a as =>
      simp [funsTruthy, hkey] at hpub
      exact hpub.2

/-- Witness for C2: an event without `fun` is decided independently of the
allow-list, and a forwarded event with `fun` has an allowed value. -/
theorem c2_fun_filtering_witness :
    (shouldPublish (some ["a.b"]) PyTags.pynone ⟨"x/y", [("jid", PyValue.vstr "1")]⟩ =
      shouldPublish none PyTags.pynone ⟨"x/y", [("jid", PyValue.vstr "1")]⟩) ∧
    funsContains (some ["a.b"]) (getKey [("fun", PyValue.vstr "a.b")] "fun") = true :=
  ⟨(c2_fun_filtering (some ["a.b"]) PyTags.pynone
      ⟨"x/y", [("jid", PyValue.vstr "1")]⟩).1 (by decide) none,
   (c2_fun_filtering (some ["a.b"]) PyTags.pynone
      ⟨"t", [("fun", PyValue.vstr "a.b")]⟩).2 ["a.b"] rfl (by decide) (by decide)
        (by decide)⟩

/-- C3: The delivery sink is invoked iff both the tag predicate and the
function predicate accept the event, at most once per event, and the loop
treats every pulled slot independently, one step each. -/
theorem c3_conjunction_once (url : String) (funs : Option (List String))
    (tags : PyTags) (net : HttpRequest → HttpOutcome) :
    (∀ ev : Event, isDelivered (processSlot url funs tags net (some ev)) =
      (tagAccepts tags ev.tag && funAccepts funs ev.data)) ∧
    (∀ slot : Option Event, sinkCalls (processSlot url funs tags net slot) ≤ 1) ∧
    (∀ stream : List (Option Event),
      runLoop url funs tags net stream =
        stream.map (processSlot url funs tags net)) := by
  refine ⟨fun ev => ?_, fun slot => ?_, fun stream => ?_⟩
  · rw [← shouldPublish_eq]
    cases h : shouldPublish funs tags ev <;> simp [processSlot, isDelivered, h]
  · cases slot with
    | none => simp [processSlot, sinkCalls]
    | some ev =>
      cases h : shouldPublish funs tags ev <;> simp [processSlot, sinkCalls, h]
  · induction stream with
    | nil => rfl
    | cons slot rest ih => rw [runLoop_cons, List.map_cons, ih]

/-- Witness for C3 at a concrete accepted event. -/
theorem c3_conjunction_once_witness :
    isDelivered (processSlot "u" none PyTags.pynone net200 (some ⟨"t", []⟩)) =
      (tagAccepts PyTags.pynone "t" && funAccepts none []) :=
  (c3_conjunction_once "u" none PyTags.pynone net200).1 ⟨"t", []⟩

/-- C4: A failed delivery (network failure, non-2xx response or
serialization failure) is non-fatal: the loop's processing of the
remaining events is exactly the same as if that delivery had succeeded —
the next event is processed immediately. -/
theorem c4_delivery_nonfatal (url : String) (funs : Option (List String))
    (tags : PyTags) (net : HttpRequest → HttpOutcome) (ev : Event)
    (rest : List (Option Event)) (payload : PyDict) (reqs : List HttpRequest)
    (res : DeliveryResult)
    (hstep : processSlot url funs tags net (some ev) =
      Step.delivered ev payload reqs res)
    (hfail : deliveryFailed res = true) :
    runLoop url funs tags net (some ev :: rest) =
      Step.delivered ev payload reqs res :: runLoop url funs tags net rest := by
  rw [runLoop_cons, hstep]

/-- Witness for C4: a 500 response on the first event does not keep the
second event from being processed. -/
theorem c4_delivery_nonfatal_witness :
    runLoop "http://ls" none PyTags.pynone net500
        [some ⟨"salt/job/1/new", []⟩, some ⟨"salt/job/2/new", []⟩] =
      Step.delivered ⟨"salt/job/1/new", []⟩ []
          [⟨"http://ls", "POST", _HEADERS, "\x7b\x7d"⟩]
          (DeliveryResult.completed (HttpOutcome.response 500 "err")) ::
        runLoop "http://ls" none PyTags.pynone net500 [some ⟨"salt/job/2/new", []⟩] :=
  c4_delivery_nonfatal "http://ls" none PyTags.pynone net500 ⟨"salt/job/1/new", []⟩
    [some ⟨"salt/job/2/new", []⟩] [] [⟨"http://ls", "POST", _HEADERS, "\x7b\x7d"⟩]
    (DeliveryResult.completed (HttpOutcome.response 500 "err")) rfl (by decide)

/-- C5: For an accepted event the sink serializes the payload to JSON and
issues exactly one POST to the configured URL with the
`Content-Type: application/json` header. -/
theorem c5_delivery_construction (url : String) (funs : Option (List String))
    (tags : PyTags) (net : HttpRequest → HttpOutcome) (ev : Event) (body : String)
    (hacc : shouldPublish funs tags ev = true)
    (hser : dumps ev.data = some body) :
    processSlot url funs tags net (some ev) =
      Step.delivered ev ev.data [⟨url, "POST", _HEADERS, body⟩]
        (DeliveryResult.completed (net ⟨url, "POST", _HEADERS, body⟩)) ∧
    _HEADERS = [("Content-Type", "application/json")] := by
  refine ⟨?_, rfl⟩
  simp [processSlot, logstash, hacc, hser]

/-- Witness for C5 at a concrete event with a one-field payload. -/
theorem c5_delivery_construction_witness :
    processSlot "http://ls" none PyTags.pynone net200
        (some ⟨"t", [("k", PyValue.vstr "v")]⟩) =
      Step.delivered ⟨"t", [("k", PyValue.vstr "v")]⟩ [("k", PyValue.vstr "v")]
        [⟨"http://ls", "POST", _HEADERS, "\x7b\"k\": \"v\"\x7d"⟩]
        (DeliveryResult.completed
          (net200 ⟨"http://ls", "POST", _HEADERS, "\x7b\"k\": \"v\"\x7d"⟩)) ∧
    _HEADERS = [("Content-Type", "application/json")] :=
  c5_delivery_construction "http://ls" none PyTags.pynone net200
    ⟨"t", [("k", PyValue.vstr "v")]⟩ "\x7b\"k\": \"v\"\x7d" (by decide) rfl

/-- C6: The bus subscription role is the primary-coordinator role
(`"master"`) iff the configured identity ends with `"_master"`, and the
worker role (`"minion"`) otherwise. -/
theorem c6_role_selection (id : String) :
    (startInstance id = "master" ↔ ∃ pre : String, id = pre ++ "_master") ∧
    (startInstance id = "minion" ↔ ¬∃ pre : String, id = pre ++ "_master") := by
  have hne : ("master" : String) ≠ "minion" := by decide
  have hiff : pyEndsWith id "_master" = true ↔ ∃ pre : String, id = pre ++ "_master" := by
    unfold pyEndsWith
    rw [List.isSuffixOf_iff_suffix]
    constructor
    · rintro ⟨t, ht⟩
      refine ⟨⟨t⟩, String.ext ?_⟩
      simp [← ht]
    · rintro ⟨pre, hpre⟩
      refine ⟨pre.data, ?_⟩
      rw [hpre]
      simp
  unfold startInstance
  cases h : pyEndsWith id "_master" with
  | false =>
    have hnex : ¬∃ pre : String, id = pre ++ "_master" := fun hex => by
      rw [hiff.mpr hex] at h
      cases h
    simp [hnex]
  | true =>
    simp [hiff.mp h]

/-- Witness for C6 at a concrete identity with the role suffix. -/
theorem c6_role_selection_witness :
    startInstance "node1_master" = "master" :=
  (c6_role_selection "node1_master").1.mpr ⟨"node1", rfl⟩

/-- C7: Invoking `start` without the required `url` fails at startup with a
configuration error: no role is selected, no loop step runs, no request is
issued, and the outcome does not depend on the event stream at all. -/
theorem c7_missing_url (funs : Option (List String)) (tags : PyTags) (id : String)
    (net : HttpRequest → HttpOutcome) (stream : List (Option Event)) :
    invokeStart none funs tags id net stream = StartOutcome.configError ∧
    outcomeRequests (invokeStart none funs tags id net stream) = [] ∧
    (∀ (role : String) (steps : List Step),
      invokeStart none funs tags id net stream ≠ StartOutcome.ran role steps) ∧
    (∀ stream2 : List (Option Event),
      invokeStart none funs tags id net stream =
        invokeStart none funs tags id net stream2) :=
  ⟨rfl, rfl, fun _ _ h => StartOutcome.noConfusion h, fun _ => rfl⟩

/-- Witness for C7 at a concrete configuration. -/
theorem c7_missing_url_witness :
    invokeStart none none PyTags.pynone "m_master" net200 [some ⟨"t", []⟩] =
      StartOutcome.configError :=
  (c7_missing_url none PyTags.pynone "m_master" net200 [some ⟨"t", []⟩]).1

/-- C8: The payload handed to the sink for an accepted event is exactly the
event's `data` mapping, and every issued request's body is the JSON
serialization of that `data` alone — the tag is never part of it. -/
theorem c8_only_data (url : String) (funs : Option (List String)) (tags : PyTags)
    (net : HttpRequest → HttpOutcome) (ev ev2 : Event) (payload : PyDict)
    (reqs : List HttpRequest) (res : DeliveryResult)
    (h : processSlot url funs tags net (some ev) =
      Step.delivered ev2 payload reqs res) :
    payload = ev.data ∧ ev2 = ev ∧
    ∀ req ∈ reqs, dumps ev.data = some req.body := by
  simp only [processSlot] at h
  cases hp : shouldPublish funs tags ev with
  | false =>
    rw [hp] at h
    simp at h
  | true =>
    rw [hp] at h
    simp at h
    obtain ⟨h1, h2, h3, h4⟩ := h
    refine ⟨h2.symm, h1.symm, ?_⟩
    intro req hreq
    rw [← h3] at hreq
    unfold logstash at hreq
    cases hd : dumps ev.data with
    | none =>
      rw [hd] at hreq
      simp at hreq
    | some body =>
      rw [hd] at hreq
      simp at hreq
      rw [hreq]

/-- Witness for C8 at a concrete accepted event. -/
theorem c8_only_data_witness :
    ([("k", PyValue.vstr "v")] : PyDict) = [("k", PyValue.vstr "v")] ∧
    (⟨"t", [("k", PyValue.vstr "v")]⟩ : Event) = ⟨"t", [("k", PyValue.vstr "v")]⟩ ∧
    ∀ req ∈ [(⟨"u", "POST", _HEADERS, "\x7b\"k\": \"v\"\x7d"⟩ : HttpRequest)],
      dumps [("k", PyValue.vstr "v")] = some req.body :=
  c8_only_data "u" none PyTags.pynone net200 ⟨"t", [("k", PyValue.vstr "v")]⟩
    ⟨"t", [("k", PyValue.vstr "v")]⟩ [("k", PyValue.vstr "v")]
    [⟨"u", "POST", _HEADERS, "\x7b\"k\": \"v\"\x7d"⟩]
    (DeliveryResult.completed (HttpOutcome.response 200 "ok")) rfl

/-- C9: A falsy value from `get_event` produces a skipped iteration: no
filtering outcome, no request and no sink call, and the loop continues
with the rest of the stream unchanged. -/
theorem c9_null_event_skip (url : String) (funs : Option (List String))
    (tags : PyTags) (net : HttpRequest → HttpOutcome)
    (rest : List (Option Event)) :
    runLoop url funs tags net (none :: rest) =
      Step.skipped :: runLoop url funs tags net rest ∧
    stepRequests Step.skipped = [] ∧ sinkCalls Step.skipped = 0 :=
  ⟨rfl, rfl, rfl⟩

/-- Witness for C9 at a concrete stream. -/
theorem c9_null_event_skip_witness :
    runLoop "u" none PyTags.pynone net200 [none] =
      Step.skipped :: runLoop "u" none PyTags.pynone net200 [] ∧
    stepRequests Step.skipped = [] ∧ sinkCalls Step.skipped = 0 :=
  c9_null_event_skip "u" none PyTags.pynone net200 []

/-- C10: A truthy non-list `tags` value (a plain string or a tuple) skips
tag filtering entirely: the tag predicate passes every event, and only the
function predicate decides. -/
theorem c10_nonlist_tags_bypass (funs : Option (List String)) (ev : Event)
    (s : String) (l : List String) :
    tagAccepts (PyTags.pystr s) ev.tag = true ∧
    tagAccepts (PyTags.pytuple l) ev.tag = true ∧
    shouldPublish funs (PyTags.pystr s) ev = funAccepts funs ev.data ∧
    shouldPublish funs (PyTags.pytuple l) ev = funAccepts funs ev.data := by
  refine ⟨?_, ?_, ?_, ?_⟩ <;>
    first
      | simp [tagAccepts, pyIsList]
      | (rw [shouldPublish_eq]; simp [tagAccepts, pyIsList])

/-- Witness for C10: a truthy string pattern that does not match the tag
still lets the event through. -/
theorem c10_nonlist_tags_bypass_witness :
    tagAccepts (PyTags.pystr "salt/*") "completely/other" = true :=
  (c10_nonlist_tags_bypass none ⟨"completely/other", []⟩ "salt/*" []).1

end HttpLogstash
